import Mathlib

/-!
Verification of the `teams team set` subcommand
(`src/o365/teams/commands/team/team-set.ts`).

The command's option bag is embedded as a structure of optional string
fields (a CLI flag is `none` when not supplied and `some s` when supplied
with value `s`).  The filesystem calls (`path.resolve`, `fs.existsSync`,
`fs.lstatSync(..).isDirectory()`) are external collaborators and are
abstracted as an `FsModel` parameter.  The `validate`, `commandAction`,
`mapTeamOptionProperties` and `getTelemetryProperties` operations are
translated line by line from the source.
-/

namespace TeamSet

/-- JavaScript truthiness of a possibly-undefined string value, as tested by
`!x` or `if (x)` in the source: `undefined` and the empty string are falsy,
every other string is truthy. -/
def truthy : Option String → Bool
  | none => false
  | some s => !s.isEmpty

/-- Lower-casing of one character, as JS `toLowerCase()` acts on the ASCII
range (the only characters the validated enumeration values compare
against). -/
def lowerChar (c : Char) : Char :=
  if 'A' ≤ c && c ≤ 'Z' then Char.ofNat (c.toNat + 32) else c

/-- `String.prototype.toLowerCase()`, embedded character-wise. -/
def lowerStr (s : String) : String := ⟨s.data.map lowerChar⟩

/-- ASCII hexadecimal digit test, used by the GUID syntax check. -/
def isHexDigit (c : Char) : Bool :=
  c.isDigit || (('a' ≤ c) && (c ≤ 'f')) || (('A' ≤ c) && (c ≤ 'F'))

/-- Modelled from the spec: `Utils.isValidGuid` lives in `Utils.ts`, which is
not part of the provided source slice; the spec only requires `teamId` to be
"a syntactically valid GUID" (canonical 8-4-4-4-12 hexadecimal form, case
insensitive). -/
def isValidGuid (s : String) : Bool :=
  let cs : List Char := s.data
  cs.length == 36 &&
  (List.range 36).all fun i =>
    if i == 8 || i == 13 || i == 18 || i == 23 then cs.getD i ' ' == '-'
    else isHexDigit (cs.getD i ' ')

/-- Abstract model of the filesystem collaborators used by `validate`:
`path.resolve`, `fs.existsSync` and `fs.lstatSync(..).isDirectory()`. -/
structure FsModel where
  resolve : String → String
  existsSync : String → Bool
  lstatIsDirectory : String → Bool

/-- The option bag of the command (`TeamSetOptions` in the source; the
`-i, --teamId <id>` flag is stored in the field `id`, the name the source
reads).  Each field is `none` when the flag was not supplied. -/
structure TeamSetOptions where
  id : Option String := none
  displayName : Option String := none
  description : Option String := none
  owners : Option String := none
  members : Option String := none
  mailNickName : Option String := none
  classification : Option String := none
  visibility : Option String := none
  isPrivate : Option String := none
  logoPath : Option String := none
deriving DecidableEq, Repr

/-- Result of `validate`: the source returns `true` (here `ok`) or an error
message string (here `err msg`). -/
inductive VResult where
  | ok : VResult
  | err : String → VResult
deriving DecidableEq, Repr

/-- Template literal `` `${id} is not a valid GUID` ``. -/
def guidMsg (v : String) : String := v ++ " is not a valid GUID"

/-- Template literal
`` `${visibility} is not a valid visibility type. Allowed values are Private|Public` ``. -/
def visMsg (v : String) : String :=
  v ++ " is not a valid visibility type. Allowed values are Private|Public"

/-- Template literal `` `${isPrivate} is not a valid boolean value` ``. -/
def boolMsg (v : String) : String := v ++ " is not a valid boolean value"

/-- Template literal `` `File '${fullPath}' not found` ``. -/
def fileMsg (p : String) : String := "File '" ++ p ++ "' not found"

/-- Template literal `` `Path '${fullPath}' points to a directory` ``. -/
def dirMsg (p : String) : String := "Path '" ++ p ++ "' points to a directory"

/-- The `validate()` closure of `TeamsSetCommand`, translated clause by
clause from the source.  Note the source tests `args.options.id`,
`args.options.visibility` and `args.options.logoPath` by JS truthiness
(undefined or empty string skips/fires the rule) but tests
`args.options.isPrivate` with `typeof ... !== 'undefined'`. -/
def validate (fs : FsModel) (args : TeamSetOptions) : VResult :=
  if !truthy args.id then
    .err "Required parameter teamId missing"
  else if !isValidGuid (args.id.getD "") then
    .err (guidMsg (args.id.getD ""))
  else if truthy args.visibility
      && !(lowerStr (args.visibility.getD "") == "private")
      && !(lowerStr (args.visibility.getD "") == "public") then
    .err (visMsg (args.visibility.getD ""))
  else if args.isPrivate.isSome
      && !(args.isPrivate.getD "" == "true")
      && !(args.isPrivate.getD "" == "false") then
    .err (boolMsg (args.isPrivate.getD ""))
  else if truthy args.logoPath then
    if !fs.existsSync (fs.resolve (args.logoPath.getD "")) then
      .err (fileMsg (fs.resolve (args.logoPath.getD "")))
    else if fs.lstatIsDirectory (fs.resolve (args.logoPath.getD "")) then
      .err (dirMsg (fs.resolve (args.logoPath.getD "")))
    else
      .ok
  else
    .ok

/-- `mapTeamOptionProperties`: the single normalization step,
`options.isPrivate = options.visibility;`, executed unconditionally. -/
def mapTeamOptionProperties (options : TeamSetOptions) : TeamSetOptions :=
  { options with isPrivate := options.visibility }

/-- The option bag that `commandAction` passes to
`GroupUpdateService.updateGroup`: `commandAction` first runs
`mapTeamOptionProperties` on `args.options` and then dispatches the
mutated bag unchanged.  The service call itself is an external
collaborator, so the dispatched bag is the observable of this step. -/
def commandAction (options : TeamSetOptions) : TeamSetOptions :=
  mapTeamOptionProperties options

/-- The six telemetry flags produced by `getTelemetryProperties` for the
tracked property names in `TeamsSetCommand.props` (the base properties
contributed by `super` belong to the external `GraphCommand`). -/
structure TelemetryProps where
  displayName : Bool
  description : Bool
  mailNickName : Bool
  classification : Bool
  visibility : Bool
  isPrivate : Bool
deriving DecidableEq, Repr

/-- `getTelemetryProperties`: for each tracked property `p`,
`telemetryProps[p] = typeof (args.options as any)[p] !== 'undefined'`. -/
def getTelemetryProperties (options : TeamSetOptions) : TelemetryProps where
  displayName := options.displayName.isSome
  description := options.description.isSome
  mailNickName := options.mailNickName.isSome
  classification := options.classification.isSome
  visibility := options.visibility.isSome
  isPrivate := options.isPrivate.isSome

/-- A concrete filesystem model on which every path resolves to itself,
nothing exists and nothing is a directory; used to instantiate theorems
whose conclusion does not depend on the filesystem. -/
def fsEmpty : FsModel where
  resolve := fun p => p
  existsSync := fun _ => false
  lstatIsDirectory := fun _ => false

/-- A concrete filesystem model on which every path resolves to `/cwd`,
every path exists and every path is a directory. -/
def fsAllDirs : FsModel where
  resolve := fun _ => "/cwd"
  existsSync := fun _ => true
  lstatIsDirectory := fun _ => true

/-! ### The validation clauses as individual rules

Each `codeRule` is the condition and message of one `if` clause of
`validate`, exactly as the code tests it.  `firstFail` returns the message
of the first firing rule, or `ok` when none fires; this is the
sequential short-circuit evaluation order. -/

/-- Clause 1 of `validate`: `if (!args.options.id)` (fires on an undefined
or empty `teamId`, by JS truthiness). -/
def codeRule1 (args : TeamSetOptions) : Option String :=
  if !truthy args.id then some "Required parameter teamId missing" else none

/-- Clause 2 of `validate`: `if (!Utils.isValidGuid(args.options.id))`. -/
def codeRule2 (args : TeamSetOptions) : Option String :=
  if !isValidGuid (args.id.getD "") then some (guidMsg (args.id.getD ""))
  else none

/-- Clause 3 of `validate`: a truthy (supplied, non-empty) `visibility`
whose lower-cased value is neither `private` nor `public`. -/
def codeRule3 (args : TeamSetOptions) : Option String :=
  if truthy args.visibility
      && !(lowerStr (args.visibility.getD "") == "private")
      && !(lowerStr (args.visibility.getD "") == "public") then
    some (visMsg (args.visibility.getD ""))
  else none

/-- Clause 4 of `validate`: `typeof args.options.isPrivate !== 'undefined'`
(any supplied value, the empty string included) and the value is neither
the exact string `true` nor the exact string `false`. -/
def codeRule4 (args : TeamSetOptions) : Option String :=
  if args.isPrivate.isSome
      && !(args.isPrivate.getD "" == "true")
      && !(args.isPrivate.getD "" == "false") then
    some (boolMsg (args.isPrivate.getD ""))
  else none

/-- Clause 5 of `validate`: a truthy (supplied, non-empty) `logoPath` is
resolved; a missing filesystem entry or a directory is an error. -/
def codeRule5 (fs : FsModel) (args : TeamSetOptions) : Option String :=
  if truthy args.logoPath then
    if !fs.existsSync (fs.resolve (args.logoPath.getD "")) then
      some (fileMsg (fs.resolve (args.logoPath.getD "")))
    else if fs.lstatIsDirectory (fs.resolve (args.logoPath.getD "")) then
      some (dirMsg (fs.resolve (args.logoPath.getD "")))
    else none
  else none

/-- The message of the first failing rule of a rule list, or `ok` when
every rule passes. -/
def firstFail : List (Option String) → VResult
  | [] => .ok
  | none :: rest => firstFail rest
  | some m :: _ => .err m

/-- The five clauses of `validate` evaluated sequentially with
short-circuiting, exactly as the code orders them. -/
def orderedValidate (fs : FsModel) (args : TeamSetOptions) : VResult :=
  firstFail
    [codeRule1 args, codeRule2 args, codeRule3 args, codeRule4 args,
      codeRule5 fs args]

/-! ### The validation rules as claim C6 words them

Claim C6 describes rule 1 as firing when `teamId` is *missing*, rule 3 as
firing whenever `visibility` is *present* with a value outside the allowed
set, and rule 5 as firing whenever `logoPath` is *present* and names a
missing file or a directory.  These rules differ from the code's clauses
exactly on empty-string values, which JS truthiness treats as absent. -/

/-- Rule 1 as claim C6 states it: `teamId` missing (not supplied). -/
def specRule1 (args : TeamSetOptions) : Option String :=
  if args.id = none then some "Required parameter teamId missing" else none

/-- Rule 2 as claim C6 states it: `teamId` not a valid GUID. -/
def specRule2 (args : TeamSetOptions) : Option String :=
  if !isValidGuid (args.id.getD "") then some (guidMsg (args.id.getD ""))
  else none

/-- Rule 3 as claim C6 states it: `visibility` present (supplied) and,
case-insensitively, not in `{private, public}`. -/
def specRule3 (args : TeamSetOptions) : Option String :=
  if args.visibility.isSome
      && !(lowerStr (args.visibility.getD "") == "private")
      && !(lowerStr (args.visibility.getD "") == "public") then
    some (visMsg (args.visibility.getD ""))
  else none

/-- Rule 4 as claim C6 states it: `isPrivate` present and not exactly
`true`/`false` (this one coincides with the code's clause). -/
def specRule4 (args : TeamSetOptions) : Option String :=
  codeRule4 args

/-- Rule 5 as claim C6 states it: `logoPath` present (supplied) and the
resolved path is a missing entry or a directory. -/
def specRule5 (fs : FsModel) (args : TeamSetOptions) : Option String :=
  match args.logoPath with
  | none => none
  | some p =>
    if !fs.existsSync (fs.resolve p) then some (fileMsg (fs.resolve p))
    else if fs.lstatIsDirectory (fs.resolve p) then some (dirMsg (fs.resolve p))
    else none

/-- `validate` as claim C6 literally describes it: the five rules of the
claim in order, first failing message wins, `ok` when all pass. -/
def specValidate (fs : FsModel) (args : TeamSetOptions) : VResult :=
  firstFail
    [specRule1 args, specRule2 args, specRule3 args, specRule4 args,
      specRule5 fs args]

/-! ### Helper lemmas -/

/-- `validate` is the sequential, short-circuiting evaluation of its five
clauses. -/
lemma validate_eq_firstFail (fs : FsModel) (args : TeamSetOptions) :
    validate fs args = orderedValidate fs args := by
  unfold validate orderedValidate codeRule1 codeRule2 codeRule3 codeRule4
    codeRule5
  split_ifs <;> simp [firstFail]

lemma getLast_data_append (x A : String) (hA : A.data ≠ []) :
    (x ++ A).data.getLast? = A.data.getLast? := by
  rw [String.data_append]
  exact List.getLast?_append_of_ne_nil _ hA

lemma msg_ne_of_lastChar {s t : String} {a b : Char}
    (hs : s.data.getLast? = some a) (ht : t.data.getLast? = some b)
    (hab : a ≠ b) : s ≠ t := by
  intro he
  rw [he, ht] at hs
  exact hab (Option.some.inj hs.symm)

lemma lastChar_guidMsg (v : String) :
    (guidMsg v).data.getLast? = some 'D' := by
  unfold guidMsg
  rw [getLast_data_append _ _ (by decide)]
  decide

lemma lastChar_visMsg (v : String) :
    (visMsg v).data.getLast? = some 'c' := by
  unfold visMsg
  rw [getLast_data_append _ _ (by decide)]
  decide

lemma lastChar_boolMsg (v : String) :
    (boolMsg v).data.getLast? = some 'e' := by
  unfold boolMsg
  rw [getLast_data_append _ _ (by decide)]
  decide

lemma lastChar_fileMsg (p : String) :
    (fileMsg p).data.getLast? = some 'd' := by
  unfold fileMsg
  rw [getLast_data_append _ _ (by decide)]
  decide

lemma lastChar_dirMsg (p : String) :
    (dirMsg p).data.getLast? = some 'y' := by
  unfold dirMsg
  rw [getLast_data_append _ _ (by decide)]
  decide

lemma boolMsg_ne_visMsg (w v : String) : boolMsg w ≠ visMsg v :=
  msg_ne_of_lastChar (lastChar_boolMsg w) (lastChar_visMsg v) (by decide)

lemma fileMsg_ne_visMsg (p v : String) : fileMsg p ≠ visMsg v :=
  msg_ne_of_lastChar (lastChar_fileMsg p) (lastChar_visMsg v) (by decide)

lemma dirMsg_ne_visMsg (p v : String) : dirMsg p ≠ visMsg v :=
  msg_ne_of_lastChar (lastChar_dirMsg p) (lastChar_visMsg v) (by decide)

lemma fileMsg_ne_boolMsg (p w : String) : fileMsg p ≠ boolMsg w :=
  msg_ne_of_lastChar (lastChar_fileMsg p) (lastChar_boolMsg w) (by decide)

lemma dirMsg_ne_boolMsg (p w : String) : dirMsg p ≠ boolMsg w :=
  msg_ne_of_lastChar (lastChar_dirMsg p) (lastChar_boolMsg w) (by decide)

/-- After the visibility clause, `validate` can only produce a boolean
message, a file message, a directory message, or success — never a
visibility message. -/
lemma tail45_ne_visMsg (fs : FsModel) (args : TeamSetOptions) (v : String) :
    firstFail [codeRule4 args, codeRule5 fs args] ≠ .err (visMsg v) := by
  unfold codeRule4 codeRule5
  split_ifs <;>
    simp only [firstFail, ne_eq, VResult.err.injEq] <;>
    first
      | exact fun h => boolMsg_ne_visMsg _ _ h
      | exact fun h => fileMsg_ne_visMsg _ _ h
      | exact fun h => dirMsg_ne_visMsg _ _ h
      | simp

/-- After the isPrivate clause, `validate` can only produce a file
message, a directory message, or success — never a boolean message. -/
lemma tail5_ne_boolMsg (fs : FsModel) (args : TeamSetOptions) (w : String) :
    firstFail [codeRule5 fs args] ≠ .err (boolMsg w) := by
  unfold codeRule5
  split_ifs <;>
    simp only [firstFail, ne_eq, VResult.err.injEq] <;>
    first
      | exact fun h => fileMsg_ne_boolMsg _ _ h
      | exact fun h => dirMsg_ne_boolMsg _ _ h
      | simp

/-- A syntactically valid GUID is a non-empty string. -/
lemma isValidGuid_isEmpty_false (g : String) (hg : isValidGuid g = true) :
    g.isEmpty = false := by
  cases he : g.isEmpty
  · rfl
  · exfalso
    have hge : g = "" := (String.isEmpty_iff g).mp he
    rw [hge] at hg
    exact absurd hg (by decide)

/-- A string other than `""` is non-empty. -/
lemma isEmpty_false_of_ne (v : String) (h : v ≠ "") : v.isEmpty = false := by
  cases he : v.isEmpty
  · rfl
  · exact absurd ((String.isEmpty_iff v).mp he) h

/-! ### Claims -/

/-- C1: for every argument bag in which the `teamId` option is missing,
`validate` returns exactly the string `"Required parameter teamId missing"`,
whatever the other options and the filesystem hold — so the rule fires
before any other rule is evaluated. -/
theorem C1_teamId_missing (fs : FsModel) (args : TeamSetOptions)
    (h : args.id = none) :
    validate fs args = .err "Required parameter teamId missing" := by
  simp [validate, truthy, h]

/-- C1 witness: the invocation with no options at all. -/
theorem C1_teamId_missing_witness :
    validate fsEmpty {} = .err "Required parameter teamId missing" :=
  C1_teamId_missing fsEmpty {} rfl

/-- C2: with `visibility = "Private"` supplied and `isPrivate` not
supplied, after the `commandAction` preprocessing step the dispatched
`isPrivate` is the verbatim string `"Private"`, not a boolean cast. -/
theorem C2_visibility_copied_verbatim (options : TeamSetOptions)
    (hv : options.visibility = some "Private")
    (hp : options.isPrivate = none) :
    (commandAction options).isPrivate = some "Private" := by
  simp [commandAction, mapTeamOptionProperties, hv]

/-- C2 witness. -/
theorem C2_visibility_copied_verbatim_witness :
    (commandAction { visibility := some "Private" }).isPrivate =
      some "Private" :=
  C2_visibility_copied_verbatim { visibility := some "Private" } rfl rfl

/-- C3 counterexample to the claim as stated: `visibility` supplied as the
empty string is, case-insensitively, outside `{private, public}`, yet
`validate` accepts the arguments — the clause tests `args.options.visibility`
by JS truthiness, and the empty string is falsy. -/
theorem C3_counterexample :
    validate fsEmpty
        { id := some "00000000-0000-0000-0000-000000000000",
          visibility := some "" } = .ok ∧
    lowerStr "" ≠ "private" ∧ lowerStr "" ≠ "public" := by
  refine ⟨by decide, by decide, by decide⟩

/-- C3 amended: with the earlier rules passing and `visibility` supplied,
`validate` rejects with the documented visibility message exactly when the
supplied value is *non-empty* and, lower-cased, outside
`{private, public}`; an empty-string `visibility` is skipped by the
truthiness test, and `private`, `PUBLIC`, `Public` are all accepted. -/
theorem C3_visibility_rule (fs : FsModel) (args : TeamSetOptions)
    (v : String) (h1 : codeRule1 args = none) (h2 : codeRule2 args = none)
    (hv : args.visibility = some v) :
    (validate fs args = .err (visMsg v)) ↔
      (v ≠ "" ∧ lowerStr v ≠ "private" ∧ lowerStr v ≠ "public") := by
  rw [validate_eq_firstFail]
  unfold orderedValidate
  rw [h1, h2]
  simp only [firstFail]
  by_cases hvempty : v = ""
  · subst hvempty
    have h3 : codeRule3 args = none := by
      unfold codeRule3
      rw [hv]
      decide
    rw [h3]
    simp only [firstFail]
    constructor
    · intro h
      exact absurd h (tail45_ne_visMsg fs args "")
    · intro h
      exact absurd rfl h.1
  · have hie : v.isEmpty = false := isEmpty_false_of_ne v hvempty
    by_cases hpriv : lowerStr v = "private"
    · have h3 : codeRule3 args = none := by
        simp [codeRule3, hv, hpriv]
      rw [h3]
      simp only [firstFail]
      constructor
      · intro h
        exact absurd h (tail45_ne_visMsg fs args v)
      · rintro ⟨-, hc, -⟩
        exact absurd hpriv hc
    · by_cases hpub : lowerStr v = "public"
      · have h3 : codeRule3 args = none := by
          simp [codeRule3, hv, hpub]
        rw [h3]
        simp only [firstFail]
        constructor
        · intro h
          exact absurd h (tail45_ne_visMsg fs args v)
        · rintro ⟨-, -, hc⟩
          exact absurd hpub hc
      · have h3 : codeRule3 args = some (visMsg v) := by
          simp [codeRule3, hv, truthy, hie, hpriv, hpub]
        rw [h3]
        simp only [firstFail]
        exact ⟨fun _ => ⟨hvempty, hpriv, hpub⟩, fun _ => by trivial⟩

/-- C3 witness: the rejected value `Invalid`. -/
theorem C3_visibility_rule_witness :
    validate fsEmpty
        { id := some "00000000-0000-0000-0000-000000000000",
          visibility := some "Invalid" } = .err (visMsg "Invalid") :=
  (C3_visibility_rule fsEmpty
      { id := some "00000000-0000-0000-0000-000000000000",
        visibility := some "Invalid" } "Invalid"
      (by decide) (by decide) rfl).mpr (by decide)

/-- C4: with the earlier rules passing and `isPrivate` supplied (any
defined value, the empty string included), `validate` rejects with the
documented boolean message exactly when the value is neither the exact
string `"true"` nor the exact string `"false"`. -/
theorem C4_isPrivate_rule (fs : FsModel) (args : TeamSetOptions)
    (w : String) (h1 : codeRule1 args = none) (h2 : codeRule2 args = none)
    (h3 : codeRule3 args = none) (hp : args.isPrivate = some w) :
    (validate fs args = .err (boolMsg w)) ↔ (w ≠ "true" ∧ w ≠ "false") := by
  rw [validate_eq_firstFail]
  unfold orderedValidate
  rw [h1, h2, h3]
  simp only [firstFail]
  by_cases ht : w = "true"
  · have h4 : codeRule4 args = none := by
      simp [codeRule4, hp, ht]
    rw [h4]
    simp only [firstFail]
    constructor
    · intro h
      exact absurd h (tail5_ne_boolMsg fs args w)
    · rintro ⟨hc, -⟩
      exact absurd ht hc
  · by_cases hf : w = "false"
    · have h4 : codeRule4 args = none := by
        simp [codeRule4, hp, hf]
      rw [h4]
      simp only [firstFail]
      constructor
      · intro h
        exact absurd h (tail5_ne_boolMsg fs args w)
      · rintro ⟨-, hc⟩
        exact absurd hf hc
    · have h4 : codeRule4 args = some (boolMsg w) := by
        simp [codeRule4, hp, ht, hf]
      rw [h4]
      simp only [firstFail]
      exact ⟨fun _ => ⟨ht, hf⟩, fun _ => by trivial⟩

/-- C4 witness: the rejected value `yes`. -/
theorem C4_isPrivate_rule_witness :
    validate fsEmpty
        { id := some "00000000-0000-0000-0000-000000000000",
          isPrivate := some "yes" } = .err (boolMsg "yes") :=
  (C4_isPrivate_rule fsEmpty
      { id := some "00000000-0000-0000-0000-000000000000",
        isPrivate := some "yes" } "yes"
      (by decide) (by decide) (by decide) rfl).mpr (by decide)

/-- C5 counterexample to the claim as stated: `logoPath` supplied as the
empty string — on a filesystem model where its resolved path exists and is
a directory — is accepted by `validate`: the clause tests
`args.options.logoPath` by JS truthiness, and the empty string is falsy,
so the filesystem checks never run. -/
theorem C5_counterexample :
    validate fsAllDirs
        { id := some "00000000-0000-0000-0000-000000000000",
          logoPath := some "" } = .ok ∧
    fsAllDirs.existsSync (fsAllDirs.resolve "") = true ∧
    fsAllDirs.lstatIsDirectory (fsAllDirs.resolve "") = true := by
  refine ⟨by decide, rfl, rfl⟩

/-- C5 amended: with the earlier rules passing and `logoPath` supplied
*non-empty*, `validate` resolves the path and returns the file-not-found
message when no entry exists there, the directory message when the entry
is a directory, and passes otherwise. -/
theorem C5_logoPath_rule (fs : FsModel) (args : TeamSetOptions)
    (p : String) (h1 : codeRule1 args = none) (h2 : codeRule2 args = none)
    (h3 : codeRule3 args = none) (h4 : codeRule4 args = none)
    (hp : args.logoPath = some p) (hne : p ≠ "") :
    validate fs args =
      if fs.existsSync (fs.resolve p) = false then
        .err (fileMsg (fs.resolve p))
      else if fs.lstatIsDirectory (fs.resolve p) = true then
        .err (dirMsg (fs.resolve p))
      else .ok := by
  rw [validate_eq_firstFail]
  unfold orderedValidate
  rw [h1, h2, h3, h4]
  simp only [firstFail]
  have hie : p.isEmpty = false := isEmpty_false_of_ne p hne
  cases hex : fs.existsSync (fs.resolve p) <;>
    cases hdir : fs.lstatIsDirectory (fs.resolve p) <;>
      simp [codeRule5, hp, truthy, hie, hex, hdir, firstFail]

/-- C5 witness: a non-existent `logo.png`. -/
theorem C5_logoPath_rule_witness :
    validate fsEmpty
        { id := some "00000000-0000-0000-0000-000000000000",
          logoPath := some "logo.png" } = .err (fileMsg "logo.png") := by
  have h := C5_logoPath_rule fsEmpty
      { id := some "00000000-0000-0000-0000-000000000000",
        logoPath := some "logo.png" } "logo.png"
      (by decide) (by decide) (by decide) (by decide) rfl (by decide)
  simpa [fsEmpty] using h

/-- C6 counterexample to the claim as stated: with `teamId` supplied as the
empty string, `validate` returns the missing-parameter message (the code's
first clause tests JS truthiness, and the empty string is falsy), whereas
the claim's rule sequence — rule 1 fires only when `teamId` is missing —
has rule 1 pass and rule 2 fail with the GUID message. -/
theorem C6_counterexample :
    validate fsEmpty { id := some "" } =
      .err "Required parameter teamId missing" ∧
    specValidate fsEmpty { id := some "" } = .err (guidMsg "") ∧
    VResult.err "Required parameter teamId missing" ≠ .err (guidMsg "") := by
  refine ⟨by decide, by decide, by decide⟩

/-- C6 amended: `validate` evaluates, in this fixed order and with
short-circuiting, the clauses (1) `teamId` missing *or empty*, (2) `teamId`
not a valid GUID, (3) `visibility` supplied non-empty and case-insensitively
outside `{private, public}`, (4) `isPrivate` supplied (empty string
included) and not exactly `"true"`/`"false"`, (5) `logoPath` supplied
non-empty and naming a missing entry or a directory; it returns the first
failing clause's message and `ok` when every clause passes. -/
theorem C6_rules_in_order (fs : FsModel) (args : TeamSetOptions) :
    validate fs args = orderedValidate fs args :=
  validate_eq_firstFail fs args

/-- C7: a valid-GUID `teamId` plus `classification = "MBI"` and no other
optional flag passes validation, and the dispatched bag carries
`classification = "MBI"` with `isPrivate` unchanged. -/
theorem C7_classification_MBI (fs : FsModel) (g : String)
    (hg : isValidGuid g = true) :
    validate fs { id := some g, classification := some "MBI" } = .ok ∧
    (commandAction
        { id := some g, classification := some "MBI" }).classification =
      some "MBI" ∧
    (commandAction { id := some g, classification := some "MBI" }).isPrivate =
      TeamSetOptions.isPrivate
        { id := some g, classification := some "MBI" } := by
  refine ⟨?_, rfl, rfl⟩
  have hne := isValidGuid_isEmpty_false g hg
  simp [validate, truthy, hne, hg]

/-- C7 witness: the all-zero GUID of the spec's example. -/
theorem C7_classification_MBI_witness :
    validate fsEmpty
        { id := some "00000000-0000-0000-0000-000000000000",
          classification := some "MBI" } = .ok ∧
    (commandAction
        { id := some "00000000-0000-0000-0000-000000000000",
          classification := some "MBI" }).classification = some "MBI" ∧
    (commandAction
        { id := some "00000000-0000-0000-0000-000000000000",
          classification := some "MBI" }).isPrivate =
      TeamSetOptions.isPrivate
        { id := some "00000000-0000-0000-0000-000000000000",
          classification := some "MBI" } :=
  C7_classification_MBI fsEmpty "00000000-0000-0000-0000-000000000000"
    (by decide)

/-- C8: each of the six tracked telemetry flags is `true` exactly when the
corresponding option is supplied (the empty string included, since
`Option.isSome (some "") = true`), independently of the option's value and
of the other flags. -/
theorem C8_telemetry_tracks_presence (options : TeamSetOptions) :
    (getTelemetryProperties options).displayName =
      options.displayName.isSome ∧
    (getTelemetryProperties options).description =
      options.description.isSome ∧
    (getTelemetryProperties options).mailNickName =
      options.mailNickName.isSome ∧
    (getTelemetryProperties options).classification =
      options.classification.isSome ∧
    (getTelemetryProperties options).visibility =
      options.visibility.isSome ∧
    (getTelemetryProperties options).isPrivate =
      options.isPrivate.isSome :=
  ⟨rfl, rfl, rfl, rfl, rfl, rfl⟩

/-- C9: when `isPrivate` is explicitly supplied and `visibility` is not,
the unconditional `isPrivate = visibility` assignment discards the user's
value: the dispatched `isPrivate` is `none`. -/
theorem C9_explicit_isPrivate_discarded (options : TeamSetOptions)
    (hp : options.isPrivate.isSome = true)
    (hv : options.visibility = none) :
    (commandAction options).isPrivate = none := by
  simp [commandAction, mapTeamOptionProperties, hv]

/-- C9 witness: `--isPrivate true` with no `--visibility`. -/
theorem C9_explicit_isPrivate_discarded_witness :
    (commandAction { isPrivate := some "true" }).isPrivate = none :=
  C9_explicit_isPrivate_discarded { isPrivate := some "true" } rfl rfl

/-- C10: the `mapTeamOptionProperties` preprocessing step touches only
`isPrivate`; every other field of the option bag is unchanged. -/
theorem C10_frame_only_isPrivate (options : TeamSetOptions) :
    (mapTeamOptionProperties options).id = options.id ∧
    (mapTeamOptionProperties options).displayName = options.displayName ∧
    (mapTeamOptionProperties options).description = options.description ∧
    (mapTeamOptionProperties options).owners = options.owners ∧
    (mapTeamOptionProperties options).members = options.members ∧
    (mapTeamOptionProperties options).mailNickName = options.mailNickName ∧
    (mapTeamOptionProperties options).classification =
      options.classification ∧
    (mapTeamOptionProperties options).visibility = options.visibility ∧
    (mapTeamOptionProperties options).logoPath = options.logoPath :=
  ⟨rfl, rfl, rfl, rfl, rfl, rfl, rfl, rfl, rfl⟩

end TeamSet
